import Mathlib

/-!
Verification of the zone-residency tracker of the sensr_sdk sample client
(`python/resident_time.py`).

Modelling conventions:
* Python floats are modelled by `ℚ`.  Timestamps are modelled by their value
  in seconds (the code only ever uses `timestamp.ToSeconds()` differences).
* Python dictionaries are modelled as functions `Nat → Option α`, with
  `mapInsert` for `d[k] = v` and `mapErase` for `del d[k]`; `d.get(k)` is
  application.
* `print` output is modelled by a list of `Msg` values describing the lines
  the handler emits.
* A Python runtime error (an unguarded `None` attribute access, or a
  `KeyError` on a dictionary subscript) is modelled by `Except.error`: the
  handler aborts and produces no successor state.
-/

/-- Model of a Python dict after `d[k] = v`. -/
def mapInsert {α : Type} (m : Nat → Option α) (k : Nat) (v : α) : Nat → Option α :=
  fun q => if q = k then some v else m q

/-- Model of a Python dict after `del d[k]`. -/
def mapErase {α : Type} (m : Nat → Option α) (k : Nat) : Nat → Option α :=
  fun q => if q = k then none else m q

/-- Object label classification from the SDK's `sensr_proto.type_pb2`
(external; only `LABEL_MISC` is distinguished by the tracker). -/
inductive LabelType where
  | LABEL_MISC
  | LABEL_CAR
  | LABEL_PEDESTRIAN
deriving DecidableEq

/-- Bounding-box size of an object snapshot (`obj.bbox.size`). -/
structure BBoxSize where
  z : ℚ
deriving DecidableEq

/-- Bounding box of an object snapshot (`obj.bbox`). -/
structure BBox where
  size : BBoxSize
deriving DecidableEq

/-- One observed object snapshot, as used by the tracker: bounding box,
label and zone membership (`obj.bbox.size.z`, `obj.label`, `obj.zone_ids`). -/
structure Obj where
  bbox : BBox
  label : LabelType
  zone_ids : List Nat
deriving DecidableEq

/-- Console lines the handlers emit (`print` calls in `resident_time.py`). -/
inductive Msg where
  | atmMissingExit (obj_id zone_id : Nat)
  | stayedTooLong (obj_id : Nat)
  | residentReport (obj_id : Nat) (resident_time avg : ℚ) (zone : String)
  | isMisc (obj_id : Nat)
  | isDoor (obj_id : Nat)
deriving DecidableEq

/-- Runtime failures of the handlers. -/
inductive BankErr where
  | attributeErrorNone
  | keyErrorZone
deriving DecidableEq

/-- `CumulativeAvg`: running average held as current mean plus count. -/
structure CumulativeAvg where
  avg : ℚ
  count : Nat
deriving DecidableEq

/-- `CumulativeAvg.__init__`: mean 0.0, count 0. -/
def CumulativeAvg.init : CumulativeAvg := { avg := 0, count := 0 }

/-- `CumulativeAvg._cumulative_average`: weighted update
`prev_avg * (n-1)/n + new_number * 1/n`. -/
def cumulative_average (prev_avg new_number : ℚ) (list_length : Nat) : ℚ :=
  let old_weight : ℚ := ((list_length : ℚ) - 1) / (list_length : ℚ)
  let new_weight : ℚ := 1 / (list_length : ℚ)
  prev_avg * old_weight + new_number * new_weight

/-- `CumulativeAvg.update`: increment the count, fold the value in. -/
def CumulativeAvg.update (c : CumulativeAvg) (value : ℚ) : CumulativeAvg :=
  { avg := cumulative_average c.avg value (c.count + 1), count := c.count + 1 }

/-- `CumulativeAvg.get`: the current mean. -/
def CumulativeAvg.get (c : CumulativeAvg) : ℚ := c.avg

/-- Feed a whole list of values, in order, into a `CumulativeAvg`. -/
def CumulativeAvg.updateAll (c : CumulativeAvg) (vs : List ℚ) : CumulativeAvg :=
  vs.foldl CumulativeAvg.update c

/-- `ATM`: per-zone dwell tracker — noise threshold (2.0 s), pending map
from object id to entry timestamp, zone id, running average. -/
structure ATM where
  time_to_assume_noisy_obj : ℚ
  residents : Nat → Option ℚ
  target_zone_id : Nat
  resident_avg : CumulativeAvg

/-- `ATM.__init__(target_zone_id)`. -/
def ATM.init (target_zone_id : Nat) : ATM :=
  { time_to_assume_noisy_obj := 2
    residents := fun _ => none
    target_zone_id := target_zone_id
    resident_avg := CumulativeAvg.init }

/-- `ATM.on_enter`: record the entry time only if the object id is not
already pending. -/
def ATM.on_enter (a : ATM) (obj_id : Nat) (timestamp : ℚ) : ATM :=
  if a.residents obj_id = none then
    { a with residents := mapInsert a.residents obj_id timestamp }
  else a

/-- `ATM.on_exit`: if an entry exists, compute the resident time, fold it
into the average only when it exceeds the noise threshold, and delete the
entry; otherwise print an error line and leave the state alone. -/
def ATM.on_exit (a : ATM) (obj_id : Nat) (timestamp : ℚ) : ATM × List Msg :=
  match a.residents obj_id with
  | some start_time =>
      let resident_time := timestamp - start_time
      if resident_time > a.time_to_assume_noisy_obj then
        ({ a with resident_avg := a.resident_avg.update resident_time
                  residents := mapErase a.residents obj_id }, [])
      else
        ({ a with residents := mapErase a.residents obj_id }, [])
  | none => (a, [Msg.atmMissingExit obj_id a.target_zone_id])

/-- `ATM.get_avg_resident_time`. -/
def ATM.get_avg_resident_time (a : ATM) : ℚ := a.resident_avg.get

/-- `ResidentPerson`: id, lazily-determined first zone, snapshot history,
creation timestamp.  `enter_zone = none` models Python `None`. -/
structure ResidentPerson where
  id : Nat
  enter_zone : Option Nat
  histories : List Obj
  born_time : ℚ
deriving DecidableEq

/-- `ResidentPerson._update_starting_zone`: Python tests
`if not self._enter_zone`, which is true for `None` and also for zone
id `0` (integer falsiness); then takes the first element of
`obj.zone_ids`, if any. -/
def ResidentPerson.update_starting_zone (p : ResidentPerson) (obj : Obj) : ResidentPerson :=
  if p.enter_zone = none ∨ p.enter_zone = some 0 then
    match obj.zone_ids with
    | [] => p
    | z :: _ => { p with enter_zone := some z }
  else p

/-- `ResidentPerson.__init__(id, obj, timestamp)`. -/
def ResidentPerson.init (id : Nat) (obj : Obj) (timestamp : ℚ) : ResidentPerson :=
  ResidentPerson.update_starting_zone
    { id := id, enter_zone := none, histories := [obj], born_time := timestamp } obj

/-- `ResidentPerson.is_door`: scan the history for the minimum bounding-box
height, starting from the 999.0 sentinel. -/
def min_height_loop : List Obj → ℚ → ℚ
  | [], m => m
  | o :: rest, m =>
      min_height_loop rest (if m > o.bbox.size.z then o.bbox.size.z else m)

/-- `ResidentPerson.is_door`: the minimum height over the history exceeds
2.5. -/
def ResidentPerson.is_door (p : ResidentPerson) : Bool :=
  decide (min_height_loop p.histories 999 > 5 / 2)

/-- `ResidentPerson.is_misc`: every snapshot in the history is labelled
`LABEL_MISC`. -/
def ResidentPerson.is_misc (p : ResidentPerson) : Bool :=
  p.histories.all (fun o => decide (o.label = LabelType.LABEL_MISC))

/-- `ResidentPerson.starting_zone`. -/
def ResidentPerson.starting_zone (p : ResidentPerson) : Option Nat := p.enter_zone

/-- `ResidentPerson.born_timestamp`. -/
def ResidentPerson.born_timestamp (p : ResidentPerson) : ℚ := p.born_time

/-- `ResidentPerson.push_history`: append the snapshot, then rerun the
starting-zone update. -/
def ResidentPerson.push_history (p : ResidentPerson) (obj : Obj) : ResidentPerson :=
  ResidentPerson.update_starting_zone { p with histories := p.histories ++ [obj] } obj

/-- `Bank`: global dwell tracker — maximum residency (1 h), per-object
records, global running average, the five fixed ATMs, and the injected
zone-name lookup fetched over REST at startup. -/
structure Bank where
  too_long_resident_time : ℚ
  residents : Nat → Option ResidentPerson
  resident_avg : CumulativeAvg
  ATMs : Nat → Option ATM
  zone_info : Nat → Option String

/-- The five watched zone ids of `Bank.__init__`. -/
def bank_atm_ids : List Nat := [1007, 1008, 1009, 1010, 1011]

/-- `Bank.__init__` (transport and REST fetch abstracted: the zone-name
lookup arrives as a parameter). -/
def Bank.init (zone_info : Nat → Option String) : Bank :=
  { too_long_resident_time := 60 * 60
    residents := fun _ => none
    resident_avg := CumulativeAvg.init
    ATMs := fun z => if z ∈ bank_atm_ids then some (ATM.init z) else none
    zone_info := zone_info }

/-- `Bank.time_diff_in_s`. -/
def time_diff_in_s (time1 time2 : ℚ) : ℚ := time1 - time2

/-- `Bank._zone_name`: Python returns `self._zone_info[zone_id]` for a
non-`None` id — a `KeyError` (modelled `none`) when the id is not in the
map — and the `"No Zone"` sentinel only for `None`. -/
def Bank.zone_name (zone_info : Nat → Option String) : Option Nat → Option String
  | some zone_id => zone_info zone_id
  | none => some "No Zone"

/-- `Bank._on_losing_event_handler`: look the record up (`.get`, so an
unknown id yields Python `None` and the following `is_misc` attribute
access raises — `BankErr.attributeErrorNone`); a record that is neither
misc nor door feeds its dwell into the global average and is reported with
its zone name (whose lookup can raise `KeyError` —
`BankErr.keyErrorZone`); then the record is deleted. -/
def Bank.on_losing_event_handler (b : Bank) (obj_id : Nat) (timestamp : ℚ) :
    Except BankErr (Bank × List Msg) :=
  match b.residents obj_id with
  | none => Except.error BankErr.attributeErrorNone
  | some resident =>
      if !resident.is_misc && !resident.is_door then
        let resident_time := time_diff_in_s timestamp resident.born_timestamp
        let avg2 := b.resident_avg.update resident_time
        match Bank.zone_name b.zone_info resident.starting_zone with
        | some zone =>
            Except.ok ({ b with resident_avg := avg2
                                residents := mapErase b.residents obj_id },
                       [Msg.residentReport obj_id resident_time avg2.get zone])
        | none => Except.error BankErr.keyErrorZone
      else
        Except.ok ({ b with residents := mapErase b.residents obj_id },
                   [if resident.is_misc then Msg.isMisc obj_id else Msg.isDoor obj_id])

/-- One iteration of the `message.stream.objects` loop of
`Bank._on_get_output_message`: create the record on first sight, otherwise
push the snapshot and force-evict when the age exceeds the maximum
residency. -/
def Bank.on_stream_obj (b : Bank) (obj_id : Nat) (obj : Obj) (timestamp : ℚ) :
    Bank × List Msg :=
  match b.residents obj_id with
  | none =>
      ({ b with residents :=
          mapInsert b.residents obj_id (ResidentPerson.init obj_id obj timestamp) }, [])
  | some found_obj =>
      let found2 := found_obj.push_history obj
      if time_diff_in_s timestamp found2.born_timestamp > b.too_long_resident_time then
        ({ b with residents := mapErase b.residents obj_id }, [Msg.stayedTooLong obj_id])
      else
        ({ b with residents := mapInsert b.residents obj_id found2 }, [])

/-- `Bank._on_entry_event_handler`: forward to the matching ATM, if any. -/
def Bank.on_entry_event_handler (b : Bank) (zone_id obj_id : Nat) (timestamp : ℚ) : Bank :=
  match b.ATMs zone_id with
  | some found_atm =>
      { b with ATMs := mapInsert b.ATMs zone_id (found_atm.on_enter obj_id timestamp) }
  | none => b

/-- `Bank._on_exit_event_handler`: forward to the matching ATM, if any. -/
def Bank.on_exit_event_handler (b : Bank) (zone_id obj_id : Nat) (timestamp : ℚ) :
    Bank × List Msg :=
  match b.ATMs zone_id with
  | some found_atm =>
      let r := found_atm.on_exit obj_id timestamp
      ({ b with ATMs := mapInsert b.ATMs zone_id r.1 }, r.2)
  | none => (b, [])

/-! Helper lemmas about `CumulativeAvg`. -/

/-- One `update` step: the new mean times the new count equals the old
total plus the new value. -/
theorem CumulativeAvg.update_total (c : CumulativeAvg) (v : ℚ) :
    (c.update v).avg * ((c.count : ℚ) + 1) = c.avg * (c.count : ℚ) + v := by
  unfold CumulativeAvg.update cumulative_average
  have hn : ((c.count : ℚ) + 1) ≠ 0 := by positivity
  push_cast
  field_simp

/-- `updateAll` adds the length of the list to the count. -/
theorem CumulativeAvg.updateAll_count (vs : List ℚ) (c : CumulativeAvg) :
    (c.updateAll vs).count = c.count + vs.length := by
  induction vs generalizing c with
  | nil => simp [CumulativeAvg.updateAll]
  | cons v t ih =>
      show ((c.update v).updateAll t).count = _
      rw [ih]
      simp [CumulativeAvg.update]
      omega

/-- `updateAll` keeps the invariant `mean * count = total`. -/
theorem CumulativeAvg.updateAll_total (vs : List ℚ) (c : CumulativeAvg) :
    (c.updateAll vs).avg * ((c.count : ℚ) + (vs.length : ℚ)) =
      c.avg * (c.count : ℚ) + vs.sum := by
  induction vs generalizing c with
  | nil => simp [CumulativeAvg.updateAll]
  | cons v t ih =>
      show ((c.update v).updateAll t).avg * _ = _
      have h2 := CumulativeAvg.update_total c v
      have hcast : ((c.count : ℚ) + ((v :: t).length : ℚ)) =
          (((c.update v).count : ℚ) + (t.length : ℚ)) := by
        simp [CumulativeAvg.update]
        push_cast
        ring
      rw [hcast, ih (c.update v)]
      simp only [CumulativeAvg.update] at h2 ⊢
      push_cast
      rw [h2]
      simp [List.sum_cons]
      ring

/-- C2. Feeding `v1..vn` (n ≥ 1) into a fresh `CumulativeAvg` in any order
yields the arithmetic mean `(v1 + ... + vn) / n`: the result on any
permutation `ws` of `vs` equals `vs.sum / vs.length`, hence is independent
of insertion order. -/
theorem cumulative_avg_mean (vs ws : List ℚ) (h : vs ≠ []) (hp : vs.Perm ws) :
    (CumulativeAvg.init.updateAll ws).get = vs.sum / (vs.length : ℚ) ∧
    (CumulativeAvg.init.updateAll ws).get = (CumulativeAvg.init.updateAll vs).get := by
  have hlen : ws.length = vs.length := hp.length_eq.symm
  have hsum : ws.sum = vs.sum := hp.sum_eq.symm
  have hne : (vs.length : ℚ) ≠ 0 := by
    have hz : vs.length ≠ 0 := by simpa [List.length_eq_zero] using h
    exact_mod_cast hz
  have key : ∀ l : List ℚ, l.sum = vs.sum → l.length = vs.length →
      (CumulativeAvg.init.updateAll l).get = vs.sum / (vs.length : ℚ) := by
    intro l hs hl
    have ht := CumulativeAvg.updateAll_total l CumulativeAvg.init
    simp [CumulativeAvg.init] at ht
    rw [hl, hs] at ht
    show (CumulativeAvg.init.updateAll l).avg = _
    rw [eq_div_iff hne]
    exact ht
  have h1 := key ws hsum hlen
  have h2 := key vs rfl rfl
  exact ⟨h1, h1.trans h2.symm⟩

/-- Witness for C2 at `vs = [3, 5]`, `ws = [5, 3]`. -/
theorem cumulative_avg_mean_witness :
    ([3, 5] : List ℚ) ≠ [] ∧ ([3, 5] : List ℚ).Perm [5, 3] ∧
    (CumulativeAvg.init.updateAll [5, 3]).get =
      ([3, 5] : List ℚ).sum / ((([3, 5] : List ℚ).length : ℚ)) :=
  ⟨by decide, by decide, (cumulative_avg_mean [3, 5] [5, 3] (by decide) (by decide)).1⟩

/-- C1. A matched `ATM.on_exit` computes `dwell = timestamp - entry_time`,
feeds it into this tracker's running average exactly when it exceeds the
2.0-second noise threshold, and removes the object id from the pending map
in every case. -/
theorem atm_exit_matched (a : ATM) (obj_id : Nat) (timestamp t0 : ℚ)
    (hthr : a.time_to_assume_noisy_obj = 2)
    (h : a.residents obj_id = some t0) :
    ((a.on_exit obj_id timestamp).1.residents obj_id = none) ∧
    (timestamp - t0 > 2 →
      (a.on_exit obj_id timestamp).1.resident_avg =
        a.resident_avg.update (timestamp - t0)) ∧
    (¬ (timestamp - t0 > 2) →
      (a.on_exit obj_id timestamp).1.resident_avg = a.resident_avg) := by
  simp only [ATM.on_exit, h]
  rw [hthr]
  by_cases hc : timestamp - t0 > 2
  · simp [hc, mapErase]
  · simp [hc, mapErase]

/-- An ATM of zone 1007 with object 5 pending since time 0. -/
def atmWithFive : ATM := (ATM.init 1007).on_enter 5 0

/-- Witness for C1: exit of object 5 at time 3/2 on `atmWithFive`. -/
theorem atm_exit_matched_witness :
    ((atmWithFive.on_exit 5 (3 / 2)).1.residents 5 = none) ∧
    ((3 : ℚ) / 2 - 0 > 2 →
      (atmWithFive.on_exit 5 (3 / 2)).1.resident_avg =
        atmWithFive.resident_avg.update ((3 : ℚ) / 2 - 0)) ∧
    (¬ ((3 : ℚ) / 2 - 0 > 2) →
      (atmWithFive.on_exit 5 (3 / 2)).1.resident_avg = atmWithFive.resident_avg) :=
  atm_exit_matched atmWithFive 5 (3 / 2) 0 rfl rfl

/-- C7. `ATM.on_enter` for an object id already pending is ignored: the
whole tracker state, including the originally recorded entry timestamp, is
unchanged. -/
theorem atm_enter_idempotent (a : ATM) (obj_id : Nat) (timestamp t0 : ℚ)
    (h : a.residents obj_id = some t0) :
    a.on_enter obj_id timestamp = a := by
  simp [ATM.on_enter, h]

/-- Witness for C7: a duplicate entry of object 5 on `atmWithFive`. -/
theorem atm_enter_idempotent_witness : atmWithFive.on_enter 5 99 = atmWithFive :=
  atm_enter_idempotent atmWithFive 5 99 0 rfl

/-- C8. `ATM.on_exit` for an absent object id is a logged no-op: the
tracker (pending map and running average) is unchanged and a missing-entry
error line is printed. -/
theorem atm_exit_missing_noop (a : ATM) (obj_id : Nat) (timestamp : ℚ)
    (h : a.residents obj_id = none) :
    a.on_exit obj_id timestamp = (a, [Msg.atmMissingExit obj_id a.target_zone_id]) := by
  simp [ATM.on_exit, h]

/-- Witness for C8: exit of the never-entered object 9 on a fresh ATM. -/
theorem atm_exit_missing_noop_witness :
    (ATM.init 1007).on_exit 9 4 = (ATM.init 1007, [Msg.atmMissingExit 9 1007]) :=
  atm_exit_missing_noop (ATM.init 1007) 9 4 rfl

/-- The `is_door` scan computes a minimum: the running value stays above
`c` exactly when the seed and every height in the list do. -/
theorem min_height_loop_lt (l : List Obj) (m c : ℚ) :
    c < min_height_loop l m ↔ c < m ∧ ∀ o ∈ l, c < o.bbox.size.z := by
  induction l generalizing m with
  | nil => simp [min_height_loop]
  | cons o rest ih =>
      simp only [min_height_loop, List.mem_cons]
      rw [ih]
      by_cases hoz : m > o.bbox.size.z
      · rw [if_pos hoz]
        constructor
        · rintro ⟨h1, h2⟩
          refine ⟨lt_trans h1 hoz, ?_⟩
          intro x hx
          rcases hx with he | hx
          · subst he
            exact h1
          · exact h2 x hx
        · rintro ⟨h1, h2⟩
          exact ⟨h2 o (Or.inl rfl), fun x hx => h2 x (Or.inr hx)⟩
      · rw [if_neg hoz]
        push_neg at hoz
        constructor
        · rintro ⟨h1, h2⟩
          refine ⟨h1, ?_⟩
          intro x hx
          rcases hx with he | hx
          · subst he
            exact lt_of_lt_of_le h1 hoz
          · exact h2 x hx
        · rintro ⟨h1, h2⟩
          exact ⟨h1, fun x hx => h2 x (Or.inr hx)⟩

/-- C9. For a record with non-empty history, `is_door` holds exactly when
the minimum bounding-box height over the history exceeds 5/2 (2.5),
i.e. when every height does, and `is_misc` holds exactly when every
snapshot is labelled `LABEL_MISC`. -/
theorem resident_classify (p : ResidentPerson) (h : p.histories ≠ []) :
    (p.is_door = true ↔ ∀ o ∈ p.histories, (5 / 2 : ℚ) < o.bbox.size.z) ∧
    (p.is_misc = true ↔ ∀ o ∈ p.histories, o.label = LabelType.LABEL_MISC) := by
  constructor
  · rw [ResidentPerson.is_door, decide_eq_true_eq, gt_iff_lt, min_height_loop_lt]
    constructor
    · exact fun hh => hh.2
    · intro hh
      refine ⟨by norm_num, hh⟩
  · rw [ResidentPerson.is_misc, List.all_eq_true]
    simp

/-- Two misc-labelled snapshots of heights 3 and 4. -/
def objMiscA : Obj :=
  { bbox := { size := { z := 3 } }, label := LabelType.LABEL_MISC, zone_ids := [] }

/-- Second misc snapshot. -/
def objMiscB : Obj :=
  { bbox := { size := { z := 4 } }, label := LabelType.LABEL_MISC, zone_ids := [2] }

/-- A record with the two misc snapshots. -/
def personMisc : ResidentPerson :=
  { id := 9, enter_zone := none, histories := [objMiscA, objMiscB], born_time := 0 }

/-- Witness for C9 on `personMisc`. -/
theorem resident_classify_witness :
    personMisc.histories ≠ [] ∧
    ((personMisc.is_door = true ↔ ∀ o ∈ personMisc.histories, (5 / 2 : ℚ) < o.bbox.size.z) ∧
     (personMisc.is_misc = true ↔ ∀ o ∈ personMisc.histories, o.label = LabelType.LABEL_MISC)) :=
  ⟨by decide, resident_classify personMisc (by decide)⟩

/-- C10. Once `enter_zone` holds a non-zero zone id, `push_history` never
changes it; but a `none` or zero starting zone is treated as absent and is
overwritten by the first zone id of a later snapshot. -/
theorem starting_zone_sticky (p : ResidentPerson) (obj : Obj) (z : Nat)
    (hz : z ≠ 0) (h : p.enter_zone = some z) :
    (p.push_history obj).enter_zone = some z ∧
    ∀ (q : ResidentPerson) (o : Obj) (w : Nat) (rest : List Nat),
      (q.enter_zone = none ∨ q.enter_zone = some 0) → o.zone_ids = w :: rest →
      (q.push_history o).enter_zone = some w := by
  constructor
  · simp [ResidentPerson.push_history, ResidentPerson.update_starting_zone, h, hz]
  · intro q o w rest hq ho
    rcases hq with hq | hq <;>
      simp [ResidentPerson.push_history, ResidentPerson.update_starting_zone, hq, ho]

/-- A snapshot inside zone 7. -/
def objZone7 : Obj :=
  { bbox := { size := { z := 1 } }, label := LabelType.LABEL_CAR, zone_ids := [7] }

/-- A record whose starting zone is the non-zero zone 3. -/
def personZone3 : ResidentPerson :=
  { id := 2, enter_zone := some 3, histories := [objZone7], born_time := 0 }

/-- Witness for C10: pushing a zone-7 snapshot onto `personZone3`. -/
theorem starting_zone_sticky_witness :
    (personZone3.push_history objZone7).enter_zone = some 3 ∧
    ∀ (q : ResidentPerson) (o : Obj) (w : Nat) (rest : List Nat),
      (q.enter_zone = none ∨ q.enter_zone = some 0) → o.zone_ids = w :: rest →
      (q.push_history o).enter_zone = some w :=
  starting_zone_sticky personZone3 objZone7 3 (by decide) rfl

/-- C5. A loss event for an object id with no `ResidencyRecord` makes the
handler raise (the `.get` returns Python `None` and the `is_misc` attribute
access fails): the result is an error and no successor state — nothing is
removed and no average is updated. -/
theorem bank_losing_unknown_raises (b : Bank) (obj_id : Nat) (timestamp : ℚ)
    (h : b.residents obj_id = none) :
    b.on_losing_event_handler obj_id timestamp =
      Except.error BankErr.attributeErrorNone := by
  simp [Bank.on_losing_event_handler, h]

/-- A zone-name lookup that only resolves zone 5. -/
def zoneInfoLobby : Nat → Option String := fun z => if z = 5 then some "Lobby" else none

/-- Witness for C5: loss of the never-seen object 3 on a fresh `Bank`. -/
theorem bank_losing_unknown_raises_witness :
    (Bank.init zoneInfoLobby).on_losing_event_handler 3 10 =
      Except.error BankErr.attributeErrorNone :=
  bank_losing_unknown_raises (Bank.init zoneInfoLobby) 3 10 rfl

/-- C6 (amended). `Bank._zone_name` maps an absent zone id (`None`) to the
sentinel `"No Zone"` and a resolved zone id to its configured name, but a
non-`None` zone id that the lookup does not resolve raises a `KeyError`
(modelled `none`) instead of the sentinel. -/
theorem zone_name_cases (zone_info : Nat → Option String) :
    Bank.zone_name zone_info none = some "No Zone" ∧
    (∀ z name, zone_info z = some name →
      Bank.zone_name zone_info (some z) = some name) ∧
    (∀ z, zone_info z = none → Bank.zone_name zone_info (some z) = none) := by
  refine ⟨rfl, ?_, ?_⟩
  · intro z name hzn
    simpa [Bank.zone_name] using hzn
  · intro z hzn
    simpa [Bank.zone_name] using hzn

/-- Witness for C6 on the `zoneInfoLobby` lookup. -/
theorem zone_name_cases_witness :
    Bank.zone_name zoneInfoLobby none = some "No Zone" ∧
    Bank.zone_name zoneInfoLobby (some 5) = some "Lobby" :=
  ⟨(zone_name_cases zoneInfoLobby).1,
   (zone_name_cases zoneInfoLobby).2.1 5 "Lobby" rfl⟩

/-- C6 counterexample: the unresolved zone id 42 yields a `KeyError`
(`none`), not the `"No Zone"` sentinel the claim promises. -/
theorem zone_name_unresolved_cex :
    Bank.zone_name zoneInfoLobby (some 42) = none ∧
    ¬ (Bank.zone_name zoneInfoLobby (some 42) = some "No Zone") := by
  constructor
  · rfl
  · intro hcontra
    simp [Bank.zone_name, zoneInfoLobby] at hcontra

/-- `push_history` never changes the creation timestamp. -/
theorem push_history_born (p : ResidentPerson) (obj : Obj) :
    (p.push_history obj).born_time = p.born_time := by
  unfold ResidentPerson.push_history ResidentPerson.update_starting_zone
  split
  · split <;> rfl
  · rfl

/-- C3 (amended). A present record whose loss event arrives is finalized:
the global average is updated with `dwell = loss_timestamp - born_time`
exactly when the record is neither door nor misc, and — provided the
zone-name lookup on its starting zone does not raise — the record is
removed from the per-object map.  (When the starting zone id is unresolved
the handler raises a `KeyError` after the average update and removes
nothing; see the counterexample.) -/
theorem bank_losing_finalize (b : Bank) (obj_id : Nat) (timestamp : ℚ)
    (r : ResidentPerson) (h : b.residents obj_id = some r)
    (hz : Bank.zone_name b.zone_info r.starting_zone ≠ none) :
    ∃ b2 msgs, b.on_losing_event_handler obj_id timestamp = Except.ok (b2, msgs) ∧
      b2.residents obj_id = none ∧
      ((r.is_misc = false ∧ r.is_door = false) →
        b2.resident_avg = b.resident_avg.update (timestamp - r.born_time)) ∧
      ((r.is_misc = true ∨ r.is_door = true) → b2.resident_avg = b.resident_avg) := by
  cases hmisc : r.is_misc with
  | true =>
      refine ⟨{ b with residents := mapErase b.residents obj_id },
              [Msg.isMisc obj_id], ?_, ?_, ?_, ?_⟩
      · simp [Bank.on_losing_event_handler, h, hmisc]
      · simp [mapErase]
      · rintro ⟨hc, _⟩
        simp at hc
      · intro _
        rfl
  | false =>
      cases hdoor : r.is_door with
      | true =>
          refine ⟨{ b with residents := mapErase b.residents obj_id },
                  [Msg.isDoor obj_id], ?_, ?_, ?_, ?_⟩
          · simp [Bank.on_losing_event_handler, h, hmisc, hdoor]
          · simp [mapErase]
          · rintro ⟨_, hc⟩
            simp at hc
          · intro _
            rfl
      | false =>
          rw [Option.ne_none_iff_exists] at hz
          obtain ⟨zone, hzone⟩ := hz
          refine ⟨{ b with
                      resident_avg := b.resident_avg.update (timestamp - r.born_time)
                      residents := mapErase b.residents obj_id },
                  [Msg.residentReport obj_id (timestamp - r.born_time)
                     (b.resident_avg.update (timestamp - r.born_time)).get zone],
                  ?_, ?_, ?_, ?_⟩
          · simp only [Bank.on_losing_event_handler, h, hmisc, hdoor, Bool.not_false,
              Bool.and_self, if_true, time_diff_in_s, ResidentPerson.born_timestamp]
            rw [← hzone]
          · simp [mapErase]
          · intro _
            rfl
          · rintro (hc | hc) <;> simp at hc

/-- A non-misc, non-door record (one car-labelled snapshot of height 1)
with no starting zone, born at time 0. -/
def personCar : ResidentPerson :=
  { id := 1, enter_zone := none, histories := [objZone7], born_time := 0 }

/-- A bank tracking `personCar` under object id 1. -/
def bankCar : Bank :=
  { too_long_resident_time := 60 * 60
    residents := mapInsert (fun _ => none) 1 personCar
    resident_avg := CumulativeAvg.init
    ATMs := fun _ => none
    zone_info := zoneInfoLobby }

/-- Witness for C3: loss of object 1 on `bankCar` at time 10. -/
theorem bank_losing_finalize_witness :
    ∃ b2 msgs, bankCar.on_losing_event_handler 1 10 = Except.ok (b2, msgs) ∧
      b2.residents 1 = none ∧
      ((personCar.is_misc = false ∧ personCar.is_door = false) →
        b2.resident_avg = bankCar.resident_avg.update ((10 : ℚ) - personCar.born_time)) ∧
      ((personCar.is_misc = true ∨ personCar.is_door = true) →
        b2.resident_avg = bankCar.resident_avg) :=
  bank_losing_finalize bankCar 1 10 personCar rfl (by decide)

/-- A record whose starting zone id 5 will be looked up. -/
def personZone5 : ResidentPerson :=
  { id := 1, enter_zone := some 5, histories := [objZone7], born_time := 0 }

/-- A bank tracking `personZone5` whose zone-name lookup resolves nothing. -/
def bankNoZones : Bank :=
  { too_long_resident_time := 60 * 60
    residents := mapInsert (fun _ => none) 1 personZone5
    resident_avg := CumulativeAvg.init
    ATMs := fun _ => none
    zone_info := fun _ => none }

/-- C3 counterexample: object 1 is present and neither door nor misc, yet
its loss event raises a `KeyError` on the zone-name lookup, so the record
is never removed from the map — the handler produces no successor state at
all. -/
theorem bank_losing_keyerror_cex :
    (bankNoZones.residents 1).isSome = true ∧
    bankNoZones.on_losing_event_handler 1 10 = Except.error BankErr.keyErrorZone := by
  constructor
  · rfl
  · have hmisc : personZone5.is_misc = false := by
      simp [ResidentPerson.is_misc, personZone5, objZone7]
    have hdoor : personZone5.is_door = false := by
      norm_num [ResidentPerson.is_door, personZone5, min_height_loop, objZone7]
    have henter : personZone5.starting_zone = some 5 := rfl
    simp [Bank.on_losing_event_handler, bankNoZones, mapInsert, hmisc, hdoor, henter,
      Bank.zone_name]

/-- C4. A snapshot append whose timestamp exceeds `born_time` by more than
the configured maximum residency force-evicts the record: it is removed
from the per-object map, a "stayed too long" line is printed, and neither
the global running average nor any ATM is touched. -/
theorem bank_too_long_eviction (b : Bank) (obj_id : Nat) (obj : Obj)
    (timestamp : ℚ) (r : ResidentPerson) (h : b.residents obj_id = some r)
    (hlong : timestamp - r.born_time > b.too_long_resident_time) :
    (b.on_stream_obj obj_id obj timestamp).1.residents obj_id = none ∧
    (b.on_stream_obj obj_id obj timestamp).2 = [Msg.stayedTooLong obj_id] ∧
    (b.on_stream_obj obj_id obj timestamp).1.resident_avg = b.resident_avg ∧
    (b.on_stream_obj obj_id obj timestamp).1.ATMs = b.ATMs := by
  simp only [Bank.on_stream_obj, h]
  have hcond : time_diff_in_s timestamp (r.push_history obj).born_timestamp >
      b.too_long_resident_time := by
    rw [time_diff_in_s, ResidentPerson.born_timestamp, push_history_born]
    exact hlong
  rw [if_pos hcond]
  exact ⟨by simp [mapErase], rfl, rfl, rfl⟩

/-- Witness for C4: a new snapshot of object 1 on `bankCar` at time 4000,
more than an hour after `personCar` was born at time 0. -/
theorem bank_too_long_eviction_witness :
    (bankCar.on_stream_obj 1 objZone7 4000).1.residents 1 = none ∧
    (bankCar.on_stream_obj 1 objZone7 4000).2 = [Msg.stayedTooLong 1] ∧
    (bankCar.on_stream_obj 1 objZone7 4000).1.resident_avg = bankCar.resident_avg ∧
    (bankCar.on_stream_obj 1 objZone7 4000).1.ATMs = bankCar.ATMs :=
  bank_too_long_eviction bankCar 1 objZone7 4000 personCar rfl
    (by norm_num [personCar, bankCar])
